import Mathlib

/-!
# Verification of the Reputation-Monitor fetch pipeline

A shallow embedding, in Lean 4, of the core of the Reputation-Monitor
repository: the per-source rate limiter (`APIRateLimiter.wait_if_needed`),
the three source fetchers (`fetch_twitter_safe`, `fetch_reddit_safe`,
`fetch_web_safe`), the Google Custom Search client
(`GoogleSearchMonitor.search`), the sentiment pipeline
(`NLPPipeline.analyze_sentiment`), and the coordinator merge step
(`fetch_all` plus the search-button handler).

Modelling conventions:

* Wall-clock times and durations are rationals (seconds).  `time.sleep`
  calls are recorded as entries in explicit sleep lists instead of
  actually blocking; retry/backoff sleeps are recorded separately from
  rate-limiter sleeps so that theorems can speak about each.
* Randomness (`random.uniform`, `random.random`) is threaded in as
  explicit jitter parameters; theorems constrain them by the intervals
  the library guarantees.
* External transports (Twitter SDK, Reddit SDK, Google API) are oracles:
  functions from the request parameters to a response value, where a
  distinguished constructor stands for the Python exception the SDK call
  may raise.  `Except.error` in a result type marks an exception
  escaping the embedded function; code paths the Python source wraps in
  `try/except` map exceptions to the same values the `except` clauses
  produce.
* Python `datetime` values are rational POSIX timestamps; string fields
  are Lean `String`s.
-/

/-! ## Sentiment pipeline (`rep_monitor_utils.py`, `NLPPipeline`) -/

/-- Output of `NLPPipeline.analyze_sentiment` restricted to the two fields
the fetch pipeline reads (`['sentiment']` and `.get('confidence', 0.0)`);
the `scores` dict and the raw model fields are carried alongside in the
source but consumed by no claim, so they are omitted here. -/
structure SentOut where
  sentiment : String
  confidence : ℚ
deriving DecidableEq, Repr

/-- A scorer oracle standing for the external models applied to the raw
text: `some (c, p)` gives VADER's `compound` score `c` and TextBlob's
`polarity` `p` (both in `[-1, 1]` for the real models), and `none` stands
for an exception raised anywhere inside the `try` block of
`analyze_sentiment` (preprocessing, VADER, or TextBlob). -/
def Scorer : Type := String → Option (ℚ × ℚ)

/-- Python's `round(q, 3)`.  (CPython rounds half to even; that differs
from `round` only at exact half-thousandths, which no claim exercises.) -/
def round3 (q : ℚ) : ℚ := (round (1000 * q) : ℚ) / 1000

/-- `NLPPipeline.analyze_sentiment` (rep_monitor_utils.py lines 88-140):
empty text short-circuits to neutral/0.0; otherwise the two model scores
are combined by the classification of lines 112-120; any exception inside
the `try` is caught and mapped to neutral/0.0. -/
def analyzeSentiment (sc : Scorer) (text : String) : SentOut :=
  if text = "" then ⟨"neutral", 0⟩
  else
    match sc text with
    | none => ⟨"neutral", 0⟩
    | some (c, p) =>
      if 1/10 ≤ c ∧ 0 < p then ⟨"positive", round3 (min |c| |p|)⟩
      else if c ≤ -(1/10) ∧ p < 0 then ⟨"negative", round3 (min |c| |p|)⟩
      else ⟨"neutral", round3 (1 - max |c| |p|)⟩

/-- One fetch batch scores each item's text in turn; an individual
score never aborts the batch (`analyzeSentiment` is total). -/
def scoreBatch (sc : Scorer) (texts : List String) : List SentOut :=
  texts.map (analyzeSentiment sc)

/-! ## Rate limiter (`reputation_monitor.py` lines 32-79) -/

/-- The per-source slice of `APIRateLimiter`'s state: `call_counts[name]`
and `last_calls[name]` (`defaultdict(float)`, so a source never seen has
`lastCall = 0`). -/
structure LimiterState where
  callCounts : List ℚ
  lastCall : ℚ
deriving DecidableEq, Repr

/-- Python's `min` over a nonempty list; junk value `0` on `[]` (the
source only applies it to lists whose length was just checked). -/
def minOf : List ℚ → ℚ
  | [] => 0
  | t :: ts => ts.foldl min t

/-- Line 44-47: drop call records older than one hour. -/
def pruneCounts (st : LimiterState) (now : ℚ) : List ℚ :=
  st.callCounts.filter fun t => now - t < 3600

/-- Lines 50-54: the hourly-limit sleep (guarded by `wait_time > 0`). -/
def hourlySleeps (counts : List ℚ) (now : ℚ) (callsPerHour : ℕ) : List ℚ :=
  if callsPerHour ≤ counts.length then
    if 0 < 3600 - (now - minOf counts) then [3600 - (now - minOf counts)] else []
  else []

/-- Lines 57-60: the trailing-60-second subset of the pruned history. -/
def minuteWindow (counts : List ℚ) (now : ℚ) : List ℚ :=
  counts.filter fun t => now - t < 60

/-- Lines 62-65: the per-minute-limit sleep, `60 - (now - min(minute_calls))`
plus the `random.uniform(1, 3)` jitter (threaded in as `jitterMinute`). -/
def minuteSleeps (counts : List ℚ) (now jitterMinute : ℚ) (callsPerMinute : ℕ) : List ℚ :=
  if callsPerMinute ≤ (minuteWindow counts now).length then
    [60 - (now - minOf (minuteWindow counts now)) + jitterMinute]
  else []

/-- Lines 67-75: the minimum inter-call interval `60/calls_per_minute`
plus the `random.uniform(0.5, 1.5)` jitter; skipped entirely when no last
call was ever recorded (`last_call > 0` is false). -/
def intervalSleeps (lastCall now jitterInterval : ℚ) (callsPerMinute : ℕ) : List ℚ :=
  if 0 < lastCall ∧ now - lastCall < 60 / (callsPerMinute : ℚ) + jitterInterval then
    [60 / (callsPerMinute : ℚ) + jitterInterval - (now - lastCall)]
  else []

/-- All sleeps one `wait_if_needed` call performs, in program order. -/
def limiterSleeps (st : LimiterState) (now jitterMinute jitterInterval : ℚ)
    (callsPerMinute callsPerHour : ℕ) : List ℚ :=
  hourlySleeps (pruneCounts st now) now callsPerHour ++
    minuteSleeps (pruneCounts st now) now jitterMinute callsPerMinute ++
    intervalSleeps st.lastCall now jitterInterval callsPerMinute

/-- Result of one `wait_if_needed` call: the sleeps it performed and the
state after recording the call. -/
structure LimiterRun where
  sleeps : List ℚ
  state : LimiterState
deriving DecidableEq, Repr

/-- `APIRateLimiter.wait_if_needed` (lines 38-79).  `now` is the single
`time.time()` captured at line 41 (the source reuses it for every check);
the recording at lines 78-79 uses a fresh `time.time()`, modelled as
`now` plus the total time slept. -/
def waitIfNeeded (st : LimiterState) (now jitterMinute jitterInterval : ℚ)
    (callsPerMinute callsPerHour : ℕ) : LimiterRun :=
  let s := limiterSleeps st now jitterMinute jitterInterval callsPerMinute callsPerHour
  ⟨s, ⟨pruneCounts st now ++ [now + s.sum], now + s.sum⟩⟩

/-! ## Normalized items -/

/-- The common record shape every fetcher appends (the keys of the dicts
built at reputation_monitor.py lines 144-152, 213-221, 235-243, 285-293). -/
structure Item where
  source : String
  content : String
  createdAt : ℚ
  sentiment : String
  score : ℤ
  url : String
  confidence : ℚ
deriving DecidableEq, Repr

/-! ## Twitter fetcher (`fetch_twitter_safe`, reputation_monitor.py lines 106-190) -/

/-- One raw tweet as the fetcher reads it: `t.text`, `t.created_at`,
`t.public_metrics.get("like_count", 0)`, `t.id`, and the resolved author
username (`none` when the author is absent from `res.includes`). -/
structure Tweet where
  id : String
  text : String
  createdAt : ℚ
  likeCount : ℤ
  authorUsername : Option String
deriving DecidableEq, Repr

/-- What one `search_recent_tweets` call does, as classified by the
`except` clause at lines 157-188: an exception whose message contains
`429` / `too many requests`, any other exception, or a normal return
(`success []` is the `not res.data` path). -/
inductive TwResponse where
  | rateLimited
  | transientError
  | success (tweets : List Tweet)

/-- Which `return` statement of `fetch_twitter_safe` produced the result:
the success return (lines 133/155), the rate-limit-exhausted return
(line 181), or the other-error-exhausted return (line 188). -/
inductive TwStatus where
  | success
  | exhaustedRetries
  | fatalError
deriving DecidableEq, Repr

/-- Line 163: `[120, 300, 600][attempt]` — indexing past the end raises
`IndexError` (modelled by `List.get?` returning `none`). -/
def backoffSchedule : List ℚ := [120, 300, 600]

/-- Lines 137-152: normalization of one tweet into an `Item`. -/
def normalizeTweet (sc : Scorer) (t : Tweet) : Item :=
  let s := analyzeSentiment sc t.text
  ⟨"Twitter", t.text, t.createdAt, s.sentiment, t.likeCount,
   (match t.authorUsername with
    | some u => "https://twitter.com/" ++ u ++ "/status/" ++ t.id
    | none => ""), s.confidence⟩

/-- The observable trace of one `fetch_twitter_safe` call: rate-limiter
sleeps, retry-backoff sleeps (lines 173 and 185), the number of API
attempts issued, the limiter state left behind, and either the returned
item list tagged with the `return` site, or an exception escaping the
function (`Except.error`). -/
structure TwRun where
  limiterSleeps : List ℚ
  backoffs : List ℚ
  attempts : ℕ
  limiter : LimiterState
  result : Except Unit (TwStatus × List Item)

/-- The `for attempt in range(max_retries + 1)` loop of
`fetch_twitter_safe` (lines 114-188).  `fuel` is the number of remaining
loop iterations (`maxRetries + 1` at entry, so the fuel-exhausted branch
is the unreachable line 190); `jit` and `times` supply, per attempt, the
rate limiter's two jitters and its `time.time()`.  Note the `IndexError`
case: `[120, 300, 600][attempt]` sits inside the `except` block, so it
escapes the function instead of being caught. -/
def fetchTwitterGo (resp : ℕ → TwResponse) (sc : Scorer) (maxRetries : ℕ)
    (jit : ℕ → ℚ × ℚ) (times : ℕ → ℚ) :
    ℕ → ℕ → LimiterState → List Item → TwRun
  | 0, _, st, items => ⟨[], [], 0, st, Except.ok (TwStatus.success, items)⟩
  | fuel + 1, attempt, st, items =>
    let w := waitIfNeeded st (times attempt) (jit attempt).1 (jit attempt).2 1 50
    match resp attempt with
    | TwResponse.success tweets =>
      ⟨w.sleeps, [], 1, w.state,
       Except.ok (TwStatus.success, items ++ tweets.map (normalizeTweet sc))⟩
    | TwResponse.rateLimited =>
      if attempt < maxRetries then
        match backoffSchedule.get? attempt with
        | some b =>
          let r := fetchTwitterGo resp sc maxRetries jit times fuel (attempt + 1) w.state items
          ⟨w.sleeps ++ r.limiterSleeps, b :: r.backoffs, r.attempts + 1, r.limiter, r.result⟩
        | none => ⟨w.sleeps, [], 1, w.state, Except.error ()⟩
      else ⟨w.sleeps, [], 1, w.state, Except.ok (TwStatus.exhaustedRetries, items)⟩
    | TwResponse.transientError =>
      if attempt < maxRetries then
        let r := fetchTwitterGo resp sc maxRetries jit times fuel (attempt + 1) w.state items
        ⟨w.sleeps ++ r.limiterSleeps, (30 : ℚ) :: r.backoffs, r.attempts + 1, r.limiter, r.result⟩
      else ⟨w.sleeps, [], 1, w.state, Except.ok (TwStatus.fatalError, items)⟩

/-- Line 111: `datetime.now(timezone.utc) - timedelta(days=6, hours=23)`,
in seconds: 6·86400 + 23·3600 = 601200. -/
def twitterEarliest (now : ℚ) : ℚ := now - 601200

/-- Line 112: `since = max(since, earliest)` — the bound actually passed
to `search_recent_tweets` as `start_time`. -/
def twitterIssuedSince (now since : ℚ) : ℚ := max since (twitterEarliest now)

/-- `fetch_twitter_safe(query, since, limit, max_retries)`.  The transport
oracle receives the issued `start_time` bound and the issued
`max_results = min(limit, 10)`, mirroring lines 122-129. -/
def fetchTwitterSafe (resp : ℚ → ℕ → ℕ → TwResponse) (sc : Scorer) (since now : ℚ)
    (lim maxRetries : ℕ) (jit : ℕ → ℚ × ℚ) (times : ℕ → ℚ) (st : LimiterState) : TwRun :=
  fetchTwitterGo (resp (twitterIssuedSince now since) (min lim 10)) sc maxRetries jit times
    (maxRetries + 1) 0 st []

/-! ## Reddit fetcher (`fetch_reddit_safe`, reputation_monitor.py lines 192-255) -/

/-- One Reddit comment as lines 226-243 read it.  `hasattr` guards are
modelled by `Option` fields; `getattr(c, 'score', 0)` and
`getattr(c, 'permalink', post.permalink)` by `Option.getD`. -/
structure RComment where
  body : Option String
  createdUtc : Option ℚ
  score : Option ℤ
  permalink : Option String

/-- One Reddit post as lines 204-221 read it.  `comments` is
`Except.error ()` when `post.comments.replace_more(limit=0)` (or the
comment listing itself) raises — caught at line 244 and skipped. -/
structure RPost where
  title : String
  selftext : String
  createdUtc : ℚ
  score : ℤ
  permalink : String
  comments : Except Unit (List RComment)

/-- Lines 226-243: normalization of one comment, `none` when the
`hasattr`/length guards reject it or `dtc < since` skips it. -/
def commentItem (sc : Scorer) (since : ℚ) (postPermalink : String) (c : RComment) :
    Option Item :=
  match c.body, c.createdUtc with
  | some b, some dtc =>
    if 10 < b.trim.length then
      if dtc < since then none
      else
        let s := analyzeSentiment sc b
        some ⟨"Reddit", b, dtc, s.sentiment, c.score.getD 0,
              "https://reddit.com" ++ c.permalink.getD postPermalink, s.confidence⟩
    else none
  | _, _ => none

/-- Lines 204-246: one post's contribution — nothing when `dt < since`
(the `continue` at line 207 skips the comments too), otherwise the post
item followed by the items of its first two comments (lines 224-246;
a comments exception is caught and yields no comment items). -/
def postItems (sc : Scorer) (since : ℚ) (p : RPost) : List Item :=
  if p.createdUtc < since then []
  else
    let txt := p.title ++ " " ++ p.selftext
    let s := analyzeSentiment sc txt
    Item.mk "Reddit" txt p.createdUtc s.sentiment p.score
        ("https://reddit.com" ++ p.permalink) s.confidence ::
      (match p.comments with
       | Except.error _ => []
       | Except.ok cs => (cs.take 2).filterMap (commentItem sc since p.permalink))

/-- The trace of one Reddit or Web fetch: rate-limiter sleeps, the item
list (`Except.error` would mark an exception escaping the function — the
source's outermost `try/except` exists precisely so that none does), and
the limiter state left behind. -/
structure FetchRun where
  limiterSleeps : List ℚ
  items : Except Unit (List Item)
  limiter : LimiterState

/-- `fetch_reddit_safe(query, since, limit)`.  The transport oracle maps a
subreddit name and the issued `limit // 2` to its search results, or to
`Except.error ()` when `subreddit.search` raises (caught at line 248 and
skipped, `continue`).  Any failure inside the outer `try` (line 252)
degrades to the items collected; `return items[:limit]` is line 255. -/
def fetchRedditSafe (search : String → ℕ → Except Unit (List RPost)) (sc : Scorer)
    (since : ℚ) (lim : ℕ) (now j1 j2 : ℚ) (st : LimiterState) : FetchRun :=
  let w := waitIfNeeded st now j1 j2 2 100
  let itemsAll := (["all", "news"].map fun sub =>
    match search sub (lim / 2) with
    | Except.error _ => []
    | Except.ok posts => posts.flatMap (postItems sc since)).flatten
  ⟨w.sleeps, Except.ok (itemsAll.take lim), w.state⟩

/-! ## Web fetcher (`fetch_web_safe`, reputation_monitor.py lines 257-298) -/

/-- One Google CSE result as lines 276-279 read it. -/
structure WebDoc where
  title : String
  snippet : String
  link : String
deriving DecidableEq, Repr

/-- Lines 276-293: normalization of one web result; `content` is
`desc or title` (Python falsiness of the empty string), `created_at` is
the `datetime.utcnow()` of the fetch. -/
def webItem (sc : Scorer) (now : ℚ) (d : WebDoc) : Item :=
  let s := analyzeSentiment sc (d.title ++ " " ++ d.snippet)
  ⟨"Web", (if d.snippet = "" then d.title else d.snippet), now, s.sentiment, 0, d.link,
   s.confidence⟩

/-- `fetch_web_safe(query, limit)`.  Missing credentials return before the
rate limiter is consulted (lines 261-263).  The transport oracle receives
the issued `num = min(limit, 10)` and either returns the result list or
stands for an exception from `build`/`execute` (caught at line 295, with
`items` still empty at every raise point). -/
def fetchWebSafe (creds : Bool) (resp : ℕ → Except Unit (List WebDoc)) (sc : Scorer)
    (lim : ℕ) (now j1 j2 : ℚ) (st : LimiterState) : FetchRun :=
  if creds = false then ⟨[], Except.ok [], st⟩
  else
    let w := waitIfNeeded st now j1 j2 1 90
    match resp (min lim 10) with
    | Except.error _ => ⟨w.sleeps, Except.ok [], w.state⟩
    | Except.ok ds => ⟨w.sleeps, Except.ok (ds.map (webItem sc now)), w.state⟩

/-! ## Google Custom Search client (`GoogleSearchMonitor.search`, google_search.py lines 51-148) -/

/-- What one `requests.get` round-trip does, as the code at lines 92-142
classifies it: an HTTP 429 with its `Retry-After` hint, a
`RequestException` (timeout, 5xx via `raise_for_status`, malformed
payload), or a parsed page (`hasNext` is the
`'nextPage' in data['queries']` test). -/
inductive GResp where
  | rateLimited (retryAfter : ℚ)
  | requestError
  | ok (docs : List WebDoc) (hasNext : Bool)

/-- How the inner `for attempt in range(max_retries)` loop ends:
the `raise` at line 140 (propagating to the outer handler), falling
through after a 429 on the last attempt (the `while` then retries the
same page), or a successful page. -/
inductive GInner where
  | raised
  | fellThrough
  | got (docs : List WebDoc) (hasNext : Bool)

/-- The inner retry loop of `search` (lines 77-142), with the source's
hard-coded `max_retries = 3` (so the `raise` guard `attempt ==
max_retries - 1` is `attempt = 2`).  On a 429 the loop sleeps
`Retry-After` and retries; on a `RequestException` before the last
attempt it sleeps `2 ** attempt + random.random() * 0.5` (jitter threaded
in as `jit attempt`) and retries. -/
def googleInner (resp : ℕ → GResp) (jit : ℕ → ℚ) : ℕ → ℕ → List ℚ × GInner
  | 0, _ => ([], GInner.fellThrough)
  | fuel + 1, attempt =>
    match resp attempt with
    | GResp.rateLimited ra =>
      let r := googleInner resp jit fuel (attempt + 1)
      (ra :: r.1, r.2)
    | GResp.requestError =>
      if attempt = 2 then ([], GInner.raised)
      else
        let r := googleInner resp jit fuel (attempt + 1)
        ((2 ^ attempt + jit attempt) :: r.1, r.2)
    | GResp.ok docs hasNext => ([], GInner.got docs hasNext)

/-- The outer `while len(results) < num_results and start <= 100` loop of
`search` (lines 76-144).  The page oracle and jitter are keyed by the
`start` index.  A successful page appends its items until `num_results`
is reached (the `break` at line 127) and advances `start` by 10 or to 101
(lines 130-133); a raised `RequestException` propagates
(`Except.error`).  `fuel` bounds the number of `while` iterations (the
source can loop on a persistently rate-limited page; every claim here
concerns finitely many iterations). -/
def googleSearchGo (resp : ℕ → ℕ → GResp) (jit : ℕ → ℕ → ℚ) (numResults : ℕ) :
    ℕ → ℕ → List WebDoc → List ℚ × Except Unit (List WebDoc)
  | 0, _, results => ([], Except.ok results)
  | fuel + 1, start, results =>
    if results.length < numResults ∧ start ≤ 100 then
      let inner := googleInner (resp start) (jit start) 3 0
      match inner.2 with
      | GInner.raised => (inner.1, Except.error ())
      | GInner.fellThrough =>
        let r := googleSearchGo resp jit numResults fuel start results
        (inner.1 ++ r.1, r.2)
      | GInner.got docs hasNext =>
        let r := googleSearchGo resp jit numResults fuel
          (if hasNext then start + 10 else 101)
          (results ++ docs.take (numResults - results.length))
        (inner.1 ++ r.1, r.2)
    else ([], Except.ok results)

/-- `GoogleSearchMonitor.search(query, num_results)` (lines 51-148): the
empty-query guard raises `ValueError` into the outer handler (line 146)
which returns `[]`; `num_results` is clamped to `[1, 100]`; pagination
starts at `start = 1`; the outer `except Exception` turns the `raise` of
line 140 into `return []`, discarding every result collected so far. -/
def googleSearch (resp : ℕ → ℕ → GResp) (jit : ℕ → ℕ → ℚ) (query : String)
    (numResults fuel : ℕ) : List ℚ × List WebDoc :=
  if query = "" then ([], [])
  else
    let r := googleSearchGo resp jit (max 1 (min 100 numResults)) fuel 1 []
    match r.2 with
    | Except.ok ds => (r.1, ds)
    | Except.error _ => (r.1, [])

/-! ## Coordinator merge (`fetch_all`, reputation_monitor.py lines 300-342)
and the search-button handler (lines 395-405) -/

/-- Ascending comparison on creation timestamps, the key of
`df.sort_values("created_at", ...)`. -/
def itemLE (x y : Item) : Prop := x.createdAt ≤ y.createdAt

instance : DecidableRel itemLE := fun x y =>
  inferInstanceAs (Decidable (x.createdAt ≤ y.createdAt))

instance : IsTotal Item itemLE := ⟨fun x y => le_total x.createdAt y.createdAt⟩

instance : IsTrans Item itemLE := ⟨fun _ _ _ hxy hyz => le_trans hxy hyz⟩

/-- `df.sort_values("created_at", ascending=False, inplace=True)`
(line 333) with the default `kind='quicksort'`.  pandas (`nargsort`)
computes an **ascending** `numpy.argsort` and reverses the indexer for
`ascending=False`; numpy's `'quicksort'` runs plain insertion sort for
arrays shorter than 17 elements (and the UI caps the merged frame at 30
rows), and insertion sort keeps equal keys in input order.  So the
descending sort is the reverse of a stable ascending sort — ties end up
in *reverse* input order, not input order. -/
def pandasSortDesc (l : List Item) : List Item :=
  (List.insertionSort itemLE l).reverse

/-- Lines 328-333 of `fetch_all`: concatenate the three per-source lists
(Twitter, Reddit, Web, in fetch order) and sort by `created_at`
descending.  (The `df.empty` guard changes nothing: sorting the empty
frame is the identity.) -/
def fetchAllMerge (tw rd wb : List Item) : List Item :=
  pandasSortDesc (tw ++ rd ++ wb)

/-- Result of pressing Search: either the hard "no API credentials found"
error (line 397) or the aggregate frame from `fetch_all`. -/
inductive RunResult where
  | noCredentials
  | aggregate (items : List Item)
deriving DecidableEq

/-- The search-button handler (lines 395-405): with no credentialed
source it emits the distinct no-credentials error and never calls
`fetch_all`; otherwise it stores `fetch_all`'s frame.  (`openai_ok` is
deliberately absent from the source's `any([...])` check.) -/
def searchHandler (twitterOk redditOk googleOk : Bool) (tw rd wb : List Item) : RunResult :=
  if !(twitterOk || redditOk || googleOk) then RunResult.noCredentials
  else RunResult.aggregate (fetchAllMerge tw rd wb)

/-- `true` iff an `Except`-typed result is a normal return (no exception
escaped the embedded function). -/
def exceptOk {α : Type} : Except Unit α → Bool
  | Except.ok _ => true
  | Except.error _ => false

/-! ## Helper lemmas -/

lemma hourlySleeps_sum_nonneg (c : List ℚ) (now : ℚ) (n : ℕ) :
    0 ≤ (hourlySleeps c now n).sum := by
  unfold hourlySleeps
  split
  · split
    · next h => simpa using le_of_lt h
    · simp
  · simp

lemma intervalSleeps_sum_nonneg (lastCall now j : ℚ) (n : ℕ) :
    0 ≤ (intervalSleeps lastCall now j n).sum := by
  unfold intervalSleeps
  split
  · next h => simp; linarith [h.2]
  · simp

/-! ## C10 — first acquire for a fresh source performs no sleep -/

/-- C10: with an empty call history, `lastCall = 0` (the `defaultdict`
default), and positive ceilings, `wait_if_needed` sleeps nowhere: the
hourly and per-minute checks see count 0 and the minimum-interval check
is skipped because `last_call > 0` fails; the call is recorded and the
function returns at once. -/
theorem first_acquire_no_sleep (now jitterMinute jitterInterval : ℚ)
    (callsPerMinute callsPerHour : ℕ)
    (hm : 1 ≤ callsPerMinute) (hh : 1 ≤ callsPerHour) :
    waitIfNeeded ⟨[], 0⟩ now jitterMinute jitterInterval callsPerMinute callsPerHour =
      ⟨[], ⟨[now], now⟩⟩ := by
  have hp : pruneCounts ⟨[], 0⟩ now = [] := rfl
  have hmw : minuteWindow ([] : List ℚ) now = [] := rfl
  have h1 : hourlySleeps (pruneCounts ⟨[], 0⟩ now) now callsPerHour = [] := by
    rw [hp]; unfold hourlySleeps; rw [if_neg]; simpa using by omega
  have h2 : minuteSleeps (pruneCounts ⟨[], 0⟩ now) now jitterMinute callsPerMinute = [] := by
    rw [hp]; unfold minuteSleeps; rw [if_neg]; rw [hmw]; simpa using by omega
  have h3 : intervalSleeps (LimiterState.mk [] 0).lastCall now jitterInterval callsPerMinute
      = [] := by
    unfold intervalSleeps
    rw [if_neg]
    simp
  have hs : limiterSleeps ⟨[], 0⟩ now jitterMinute jitterInterval callsPerMinute callsPerHour
      = [] := by
    unfold limiterSleeps; rw [h1, h2, h3]; rfl
  unfold waitIfNeeded
  rw [hs, hp]
  simp

/-- Witness for C10 at a concrete input. -/
theorem first_acquire_no_sleep_witness :
    1 ≤ 1 ∧
      waitIfNeeded ⟨[], 0⟩ 5 1 1 1 1 = ⟨[], ⟨[5], 5⟩⟩ :=
  ⟨le_refl 1, first_acquire_no_sleep 5 1 1 1 1 (le_refl 1) (le_refl 1)⟩

/-! ## C2 — the per-minute ceiling forces a sleep of at least the window
remainder plus the [1,3) jitter -/

/-- C2: if at least `calls_per_minute` calls are on record within the
trailing 60 seconds, `wait_if_needed` sleeps in total at least
`60 - (now - oldest call in the window)` plus the `random.uniform(1, 3)`
jitter, and only then records the call (appends it to the pruned
history). -/
theorem minute_ceiling_forces_sleep (st : LimiterState)
    (now jitterMinute jitterInterval : ℚ) (callsPerMinute callsPerHour : ℕ)
    (hm : 1 ≤ callsPerMinute) (hh : 1 ≤ callsPerHour)
    (hj1 : 1 ≤ jitterMinute) (hj3 : jitterMinute < 3)
    (hcount : callsPerMinute ≤ (minuteWindow (pruneCounts st now) now).length) :
    60 - (now - minOf (minuteWindow (pruneCounts st now) now)) + jitterMinute ≤
      (waitIfNeeded st now jitterMinute jitterInterval callsPerMinute callsPerHour).sleeps.sum ∧
    (waitIfNeeded st now jitterMinute jitterInterval callsPerMinute callsPerHour).state.callCounts
      = pruneCounts st now ++
        [now + (waitIfNeeded st now jitterMinute jitterInterval callsPerMinute
          callsPerHour).sleeps.sum] := by
  refine ⟨?_, rfl⟩
  have hmin : minuteSleeps (pruneCounts st now) now jitterMinute callsPerMinute =
      [60 - (now - minOf (minuteWindow (pruneCounts st now) now)) + jitterMinute] := by
    unfold minuteSleeps; rw [if_pos hcount]
  show _ ≤ (limiterSleeps st now jitterMinute jitterInterval callsPerMinute callsPerHour).sum
  unfold limiterSleeps
  rw [List.sum_append, List.sum_append, hmin]
  have h1 := hourlySleeps_sum_nonneg (pruneCounts st now) now callsPerHour
  have h3 := intervalSleeps_sum_nonneg st.lastCall now jitterInterval callsPerMinute
  simp only [List.sum_cons, List.sum_nil]
  linarith

/-- Witness for C2: one recorded call 50 s ago with a 1-per-minute
ceiling forces a sleep of at least 10 s plus the jitter 2. -/
theorem minute_ceiling_forces_sleep_witness :
    (1 : ℕ) ≤ 1 ∧ (1 : ℚ) ≤ 2 ∧ (2 : ℚ) < 3 ∧
      1 ≤ (minuteWindow (pruneCounts ⟨[50], 0⟩ 100) 100).length ∧
      (12 : ℚ) ≤ (waitIfNeeded ⟨[50], 0⟩ 100 2 1 1 60).sleeps.sum := by
  have hmw : minuteWindow (pruneCounts ⟨[50], 0⟩ 100) 100 = [50] := by
    simp only [pruneCounts, minuteWindow, List.filter_cons, List.filter_nil,
      decide_eq_true_eq]
    norm_num
  have hcount : 1 ≤ (minuteWindow (pruneCounts ⟨[50], 0⟩ 100) 100).length := by
    rw [hmw]; norm_num
  have h := minute_ceiling_forces_sleep ⟨[50], 0⟩ 100 2 1 1 60 (le_refl 1) (by norm_num)
    (by norm_num) (by norm_num) hcount
  refine ⟨le_refl 1, by norm_num, by norm_num, hcount, ?_⟩
  have he : 60 - ((100 : ℚ) - minOf (minuteWindow (pruneCounts ⟨[50], 0⟩ 100) 100)) + 2
      = 12 := by
    rw [hmw]
    show 60 - ((100 : ℚ) - 50) + 2 = 12
    norm_num
  exact he ▸ h.1

/-! ## C3 — the Twitter `since` bound is clamped, never passed through -/

/-- C3: `fetch_twitter_safe` always issues its request with
`start_time = max(since, now - 601200 s)` (601200 s = 6 days 23 hours,
the source's lookback cap, within the ~7-day endpoint restriction), so a
requested lookback older than the cap is clamped to at most 7 days and
the request is still issued with that bound rather than answered empty. -/
theorem twitter_since_clamped (resp : ℚ → ℕ → ℕ → TwResponse) (sc : Scorer)
    (since now : ℚ) (lim maxRetries : ℕ) (jit : ℕ → ℚ × ℚ) (times : ℕ → ℚ)
    (st : LimiterState) :
    fetchTwitterSafe resp sc since now lim maxRetries jit times st =
      fetchTwitterGo (resp (twitterIssuedSince now since) (min lim 10)) sc maxRetries jit
        times (maxRetries + 1) 0 st [] ∧
    twitterIssuedSince now since = max since (now - 601200) ∧
    now - 7 * 86400 ≤ twitterIssuedSince now since := by
  refine ⟨rfl, rfl, ?_⟩
  have h : now - 601200 ≤ twitterIssuedSince now since := le_max_right _ _
  have : (7 : ℚ) * 86400 = 604800 := by norm_num
  linarith

/-! ## C7 — zero credentialed sources is a distinct hard failure -/

/-- C7: with no credentialed source the search handler returns the
distinct no-credentials signal (and never invokes `fetch_all`); with at
least one credentialed source it returns the aggregate frame, not the
hard failure. -/
theorem zero_credentials_distinct_failure (t r g : Bool) (tw rd wb : List Item) :
    searchHandler false false false tw rd wb = RunResult.noCredentials ∧
    ((t || r || g) = true →
      searchHandler t r g tw rd wb = RunResult.aggregate (fetchAllMerge tw rd wb)) := by
  refine ⟨rfl, fun h => ?_⟩
  unfold searchHandler
  rw [h]
  rfl

/-- Witness for C7 with only Twitter credentialed. -/
theorem zero_credentials_distinct_failure_witness :
    (true || false || false) = true ∧
      searchHandler true false false [] [] [] = RunResult.aggregate (fetchAllMerge [] [] []) :=
  ⟨rfl, (zero_credentials_distinct_failure true false false [] [] []).2 rfl⟩

/-! ## C1 — aggregate ordering -/

/-- C1, counterexample: Twitter returns items at timestamps 10 and 9,
Reddit one item at timestamp 10 (the spec's tie scenario with Twitter
having fetch priority).  The merge yields the Reddit item *first* —
pandas' descending sort reverses the stable ascending order, so the tie
comes out in reverse fetch order, not `[A@T, B@T, A@T-1]`. -/
theorem aggregate_tie_order_counterexample :
    fetchAllMerge
        [⟨"Twitter", "A@T", 10, "neutral", 0, "", 0⟩,
         ⟨"Twitter", "A@T-1", 9, "neutral", 0, "", 0⟩]
        [⟨"Reddit", "B@T", 10, "neutral", 0, "", 0⟩] [] =
      [⟨"Reddit", "B@T", 10, "neutral", 0, "", 0⟩,
       ⟨"Twitter", "A@T", 10, "neutral", 0, "", 0⟩,
       ⟨"Twitter", "A@T-1", 9, "neutral", 0, "", 0⟩] ∧
    ([⟨"Reddit", "B@T", 10, "neutral", 0, "", 0⟩,
      ⟨"Twitter", "A@T", 10, "neutral", 0, "", 0⟩,
      ⟨"Twitter", "A@T-1", 9, "neutral", 0, "", 0⟩] : List Item) ≠
      [⟨"Twitter", "A@T", 10, "neutral", 0, "", 0⟩,
       ⟨"Reddit", "B@T", 10, "neutral", 0, "", 0⟩,
       ⟨"Twitter", "A@T-1", 9, "neutral", 0, "", 0⟩] := by
  constructor
  · show (List.insertionSort itemLE _).reverse = _
    norm_num [List.insertionSort, List.orderedInsert, itemLE]
  · intro h
    exact absurd (List.head_eq_of_cons_eq h) (by simp)

/-- C1, amended: the AggregateResult is a permutation of the
concatenation of the per-source lists (Twitter ++ Reddit ++ Web) sorted
by creation timestamp descending; equal-timestamp ties are *not* in
source fetch-priority order (the descending sort is the reverse of a
stable ascending sort, so ties land in reverse concatenation order). -/
theorem aggregate_sorted_descending (tw rd wb : List Item) :
    (fetchAllMerge tw rd wb).Perm (tw ++ rd ++ wb) ∧
    List.Sorted (fun x y : Item => y.createdAt ≤ x.createdAt) (fetchAllMerge tw rd wb) := by
  constructor
  · exact (List.reverse_perm _).trans (List.perm_insertionSort _ _)
  · show List.Sorted _ (List.insertionSort itemLE (tw ++ rd ++ wb)).reverse
    rw [List.Sorted, List.pairwise_reverse]
    exact List.sorted_insertionSort itemLE (tw ++ rd ++ wb)

/-! ## C8 — per-item scoring failures degrade to neutral -/

/-- C8, counterexample: for the one-letter text `"a"` neither VADER nor
TextBlob finds any sentiment-bearing token, so both model scores are 0
(the oracle records exactly that); the code then takes the neutral
branch with `confidence = 1.0 - max(|0|, |0|) = 1.0`, not the claimed
zero-confidence default. -/
theorem short_text_confidence_counterexample :
    (analyzeSentiment (fun _ => some (0, 0)) "a").confidence = 1 ∧ (1 : ℚ) ≠ 0 := by
  constructor
  · simp only [analyzeSentiment]
    norm_num [round3, round_eq]
    simp
  · norm_num

/-- C8, amended: a scoring exception for one item yields the neutral
defaults (label `neutral`, confidence 0.0) for that item, empty text
yields the neutral defaults, and scoring never aborts the batch (every
item of a batch is processed); but short non-empty text goes through the
normal scoring path, whose neutral branch yields confidence
`1 - max(|compound|, |polarity|)`, not 0.0. -/
theorem scoring_failure_degrades_neutral (sc : Scorer) (text : String)
    (texts : List String) :
    analyzeSentiment sc "" = ⟨"neutral", 0⟩ ∧
    (sc text = none → analyzeSentiment sc text = ⟨"neutral", 0⟩) ∧
    (scoreBatch sc texts).length = texts.length := by
  refine ⟨rfl, fun h => ?_, by simp [scoreBatch]⟩
  by_cases ht : text = "" <;> simp [analyzeSentiment, ht, h]

/-- Witness for C8's amended claim: a scorer that always raises. -/
theorem scoring_failure_degrades_neutral_witness :
    ((fun _ => none : Scorer) "x" = none) ∧
      analyzeSentiment (fun _ => none) "x" = ⟨"neutral", 0⟩ :=
  ⟨rfl, (scoring_failure_degrades_neutral (fun _ => none) "x" []).2.1 rfl⟩

/-! ## Twitter retry-loop lemmas

One-step unfolding equations for `fetchTwitterGo`, one per branch of the
`except` classification, keeping the recursive call folded. -/

lemma twitterGo_succ_eq (resp : ℕ → TwResponse) (sc : Scorer) (maxRetries : ℕ)
    (jit : ℕ → ℚ × ℚ) (times : ℕ → ℚ) (fuel attempt : ℕ) (st : LimiterState)
    (items : List Item) (tweets : List Tweet)
    (hresp : resp attempt = TwResponse.success tweets) :
    fetchTwitterGo resp sc maxRetries jit times (fuel + 1) attempt st items =
      ⟨(waitIfNeeded st (times attempt) (jit attempt).1 (jit attempt).2 1 50).sleeps, [], 1,
       (waitIfNeeded st (times attempt) (jit attempt).1 (jit attempt).2 1 50).state,
       Except.ok (TwStatus.success, items ++ tweets.map (normalizeTweet sc))⟩ := by
  simp only [fetchTwitterGo, hresp]

lemma twitterGo_rl_retry_eq (resp : ℕ → TwResponse) (sc : Scorer) (maxRetries : ℕ)
    (jit : ℕ → ℚ × ℚ) (times : ℕ → ℚ) (fuel attempt : ℕ) (st : LimiterState)
    (items : List Item) (b : ℚ)
    (hresp : resp attempt = TwResponse.rateLimited) (hlt : attempt < maxRetries)
    (hb : backoffSchedule.get? attempt = some b) :
    fetchTwitterGo resp sc maxRetries jit times (fuel + 1) attempt st items =
      ⟨(waitIfNeeded st (times attempt) (jit attempt).1 (jit attempt).2 1 50).sleeps ++
         (fetchTwitterGo resp sc maxRetries jit times fuel (attempt + 1)
           (waitIfNeeded st (times attempt) (jit attempt).1 (jit attempt).2 1 50).state
           items).limiterSleeps,
       b :: (fetchTwitterGo resp sc maxRetries jit times fuel (attempt + 1)
           (waitIfNeeded st (times attempt) (jit attempt).1 (jit attempt).2 1 50).state
           items).backoffs,
       (fetchTwitterGo resp sc maxRetries jit times fuel (attempt + 1)
           (waitIfNeeded st (times attempt) (jit attempt).1 (jit attempt).2 1 50).state
           items).attempts + 1,
       (fetchTwitterGo resp sc maxRetries jit times fuel (attempt + 1)
           (waitIfNeeded st (times attempt) (jit attempt).1 (jit attempt).2 1 50).state
           items).limiter,
       (fetchTwitterGo resp sc maxRetries jit times fuel (attempt + 1)
           (waitIfNeeded st (times attempt) (jit attempt).1 (jit attempt).2 1 50).state
           items).result⟩ := by
  simp only [fetchTwitterGo, hresp, if_pos hlt, hb]

lemma twitterGo_rl_exhaust_eq (resp : ℕ → TwResponse) (sc : Scorer) (maxRetries : ℕ)
    (jit : ℕ → ℚ × ℚ) (times : ℕ → ℚ) (fuel attempt : ℕ) (st : LimiterState)
    (items : List Item)
    (hresp : resp attempt = TwResponse.rateLimited) (hge : ¬ attempt < maxRetries) :
    fetchTwitterGo resp sc maxRetries jit times (fuel + 1) attempt st items =
      ⟨(waitIfNeeded st (times attempt) (jit attempt).1 (jit attempt).2 1 50).sleeps, [], 1,
       (waitIfNeeded st (times attempt) (jit attempt).1 (jit attempt).2 1 50).state,
       Except.ok (TwStatus.exhaustedRetries, items)⟩ := by
  simp only [fetchTwitterGo, hresp, if_neg hge]

lemma twitterGo_rl_indexerror_eq (resp : ℕ → TwResponse) (sc : Scorer) (maxRetries : ℕ)
    (jit : ℕ → ℚ × ℚ) (times : ℕ → ℚ) (fuel attempt : ℕ) (st : LimiterState)
    (items : List Item)
    (hresp : resp attempt = TwResponse.rateLimited) (hlt : attempt < maxRetries)
    (hb : backoffSchedule.get? attempt = none) :
    fetchTwitterGo resp sc maxRetries jit times (fuel + 1) attempt st items =
      ⟨(waitIfNeeded st (times attempt) (jit attempt).1 (jit attempt).2 1 50).sleeps, [], 1,
       (waitIfNeeded st (times attempt) (jit attempt).1 (jit attempt).2 1 50).state,
       Except.error ()⟩ := by
  simp only [fetchTwitterGo, hresp, if_pos hlt, hb]

lemma twitterGo_tr_retry_eq (resp : ℕ → TwResponse) (sc : Scorer) (maxRetries : ℕ)
    (jit : ℕ → ℚ × ℚ) (times : ℕ → ℚ) (fuel attempt : ℕ) (st : LimiterState)
    (items : List Item)
    (hresp : resp attempt = TwResponse.transientError) (hlt : attempt < maxRetries) :
    fetchTwitterGo resp sc maxRetries jit times (fuel + 1) attempt st items =
      ⟨(waitIfNeeded st (times attempt) (jit attempt).1 (jit attempt).2 1 50).sleeps ++
         (fetchTwitterGo resp sc maxRetries jit times fuel (attempt + 1)
           (waitIfNeeded st (times attempt) (jit attempt).1 (jit attempt).2 1 50).state
           items).limiterSleeps,
       (30 : ℚ) :: (fetchTwitterGo resp sc maxRetries jit times fuel (attempt + 1)
           (waitIfNeeded st (times attempt) (jit attempt).1 (jit attempt).2 1 50).state
           items).backoffs,
       (fetchTwitterGo resp sc maxRetries jit times fuel (attempt + 1)
           (waitIfNeeded st (times attempt) (jit attempt).1 (jit attempt).2 1 50).state
           items).attempts + 1,
       (fetchTwitterGo resp sc maxRetries jit times fuel (attempt + 1)
           (waitIfNeeded st (times attempt) (jit attempt).1 (jit attempt).2 1 50).state
           items).limiter,
       (fetchTwitterGo resp sc maxRetries jit times fuel (attempt + 1)
           (waitIfNeeded st (times attempt) (jit attempt).1 (jit attempt).2 1 50).state
           items).result⟩ := by
  simp only [fetchTwitterGo, hresp, if_pos hlt]

lemma twitterGo_tr_exhaust_eq (resp : ℕ → TwResponse) (sc : Scorer) (maxRetries : ℕ)
    (jit : ℕ → ℚ × ℚ) (times : ℕ → ℚ) (fuel attempt : ℕ) (st : LimiterState)
    (items : List Item)
    (hresp : resp attempt = TwResponse.transientError) (hge : ¬ attempt < maxRetries) :
    fetchTwitterGo resp sc maxRetries jit times (fuel + 1) attempt st items =
      ⟨(waitIfNeeded st (times attempt) (jit attempt).1 (jit attempt).2 1 50).sleeps, [], 1,
       (waitIfNeeded st (times attempt) (jit attempt).1 (jit attempt).2 1 50).state,
       Except.ok (TwStatus.fatalError, items)⟩ := by
  simp only [fetchTwitterGo, hresp, if_neg hge]

lemma backoffSchedule_get_lt (a : ℕ) (h : a < 3) : ∃ b, backoffSchedule.get? a = some b := by
  interval_cases a <;> exact ⟨_, rfl⟩

lemma twitterGo_rateLimited (resp : ℕ → TwResponse) (sc : Scorer) (maxRetries : ℕ)
    (jit : ℕ → ℚ × ℚ) (times : ℕ → ℚ) (hmr : maxRetries ≤ 3)
    (hr : ∀ k, resp k = TwResponse.rateLimited) :
    ∀ fuel attempt st items, attempt + fuel = maxRetries →
      (fetchTwitterGo resp sc maxRetries jit times (fuel + 1) attempt st items).attempts
          = fuel + 1 ∧
      (fetchTwitterGo resp sc maxRetries jit times (fuel + 1) attempt st items).result
          = Except.ok (TwStatus.exhaustedRetries, items) := by
  intro fuel
  induction fuel with
  | zero =>
    intro attempt st items h
    rw [twitterGo_rl_exhaust_eq resp sc maxRetries jit times 0 attempt st items
      (hr attempt) (by omega)]
    exact ⟨rfl, rfl⟩
  | succ fuel ih =>
    intro attempt st items h
    obtain ⟨b, hb⟩ := backoffSchedule_get_lt attempt (by omega)
    rw [twitterGo_rl_retry_eq resp sc maxRetries jit times (fuel + 1) attempt st items b
      (hr attempt) (by omega) hb]
    have := ih (attempt + 1) (waitIfNeeded st (times attempt) (jit attempt).1
      (jit attempt).2 1 50).state items (by omega)
    exact ⟨by rw [this.1], this.2⟩

lemma twitterGo_transient (resp : ℕ → TwResponse) (sc : Scorer) (maxRetries : ℕ)
    (jit : ℕ → ℚ × ℚ) (times : ℕ → ℚ)
    (hr : ∀ k, resp k = TwResponse.transientError) :
    ∀ fuel attempt st items, attempt + fuel = maxRetries →
      (fetchTwitterGo resp sc maxRetries jit times (fuel + 1) attempt st items).backoffs
          = List.replicate fuel 30 ∧
      (fetchTwitterGo resp sc maxRetries jit times (fuel + 1) attempt st items).attempts
          = fuel + 1 ∧
      (fetchTwitterGo resp sc maxRetries jit times (fuel + 1) attempt st items).result
          = Except.ok (TwStatus.fatalError, items) := by
  intro fuel
  induction fuel with
  | zero =>
    intro attempt st items h
    rw [twitterGo_tr_exhaust_eq resp sc maxRetries jit times 0 attempt st items
      (hr attempt) (by omega)]
    exact ⟨rfl, rfl, rfl⟩
  | succ fuel ih =>
    intro attempt st items h
    rw [twitterGo_tr_retry_eq resp sc maxRetries jit times (fuel + 1) attempt st items
      (hr attempt) (by omega)]
    have := ih (attempt + 1) (waitIfNeeded st (times attempt) (jit attempt).1
      (jit attempt).2 1 50).state items (by omega)
    exact ⟨by rw [this.1, List.replicate_succ], by rw [this.2.1], this.2.2⟩

lemma twitterGo_isOk (resp : ℕ → TwResponse) (sc : Scorer) (maxRetries : ℕ)
    (jit : ℕ → ℚ × ℚ) (times : ℕ → ℚ) (hmr : maxRetries ≤ 3) :
    ∀ fuel attempt st items,
      exceptOk (fetchTwitterGo resp sc maxRetries jit times fuel attempt st items).result
        = true := by
  intro fuel
  induction fuel with
  | zero => intro attempt st items; rfl
  | succ fuel ih =>
    intro attempt st items
    rcases hresp : resp attempt with _ | _ | tweets
    · by_cases hlt : attempt < maxRetries
      · obtain ⟨b, hb⟩ := backoffSchedule_get_lt attempt (by omega)
        rw [twitterGo_rl_retry_eq resp sc maxRetries jit times fuel attempt st items b
          hresp hlt hb]
        exact ih _ _ _
      · rw [twitterGo_rl_exhaust_eq resp sc maxRetries jit times fuel attempt st items
          hresp hlt]
        rfl
    · by_cases hlt : attempt < maxRetries
      · rw [twitterGo_tr_retry_eq resp sc maxRetries jit times fuel attempt st items
          hresp hlt]
        exact ih _ _ _
      · rw [twitterGo_tr_exhaust_eq resp sc maxRetries jit times fuel attempt st items
          hresp hlt]
        rfl
    · rw [twitterGo_succ_eq resp sc maxRetries jit times fuel attempt st items tweets hresp]
      rfl

lemma twitterGo_jitter_independent (resp : ℕ → TwResponse) (sc : Scorer) (maxRetries : ℕ)
    (jit jit' : ℕ → ℚ × ℚ) (times times' : ℕ → ℚ) :
    ∀ fuel attempt st st' items,
      (fetchTwitterGo resp sc maxRetries jit times fuel attempt st items).result =
        (fetchTwitterGo resp sc maxRetries jit' times' fuel attempt st' items).result ∧
      (fetchTwitterGo resp sc maxRetries jit times fuel attempt st items).attempts =
        (fetchTwitterGo resp sc maxRetries jit' times' fuel attempt st' items).attempts ∧
      (fetchTwitterGo resp sc maxRetries jit times fuel attempt st items).backoffs =
        (fetchTwitterGo resp sc maxRetries jit' times' fuel attempt st' items).backoffs := by
  intro fuel
  induction fuel with
  | zero => intro attempt st st' items; exact ⟨rfl, rfl, rfl⟩
  | succ fuel ih =>
    intro attempt st st' items
    rcases hresp : resp attempt with _ | _ | tweets
    · by_cases hlt : attempt < maxRetries
      · rcases hb : backoffSchedule.get? attempt with _ | b
        · rw [twitterGo_rl_indexerror_eq resp sc maxRetries jit times fuel attempt st items
            hresp hlt hb,
            twitterGo_rl_indexerror_eq resp sc maxRetries jit' times' fuel attempt st' items
            hresp hlt hb]
          exact ⟨rfl, rfl, rfl⟩
        · rw [twitterGo_rl_retry_eq resp sc maxRetries jit times fuel attempt st items b
            hresp hlt hb,
            twitterGo_rl_retry_eq resp sc maxRetries jit' times' fuel attempt st' items b
            hresp hlt hb]
          have := ih (attempt + 1)
            (waitIfNeeded st (times attempt) (jit attempt).1 (jit attempt).2 1 50).state
            (waitIfNeeded st' (times' attempt) (jit' attempt).1 (jit' attempt).2 1 50).state
            items
          exact ⟨this.1, by rw [this.2.1], by rw [this.2.2]⟩
      · rw [twitterGo_rl_exhaust_eq resp sc maxRetries jit times fuel attempt st items
          hresp hlt,
          twitterGo_rl_exhaust_eq resp sc maxRetries jit' times' fuel attempt st' items
          hresp hlt]
        exact ⟨rfl, rfl, rfl⟩
    · by_cases hlt : attempt < maxRetries
      · rw [twitterGo_tr_retry_eq resp sc maxRetries jit times fuel attempt st items
          hresp hlt,
          twitterGo_tr_retry_eq resp sc maxRetries jit' times' fuel attempt st' items
          hresp hlt]
        have := ih (attempt + 1)
          (waitIfNeeded st (times attempt) (jit attempt).1 (jit attempt).2 1 50).state
          (waitIfNeeded st' (times' attempt) (jit' attempt).1 (jit' attempt).2 1 50).state
          items
        exact ⟨this.1, by rw [this.2.1], by rw [this.2.2]⟩
      · rw [twitterGo_tr_exhaust_eq resp sc maxRetries jit times fuel attempt st items
          hresp hlt,
          twitterGo_tr_exhaust_eq resp sc maxRetries jit' times' fuel attempt st' items
          hresp hlt]
        exact ⟨rfl, rfl, rfl⟩
    · rw [twitterGo_succ_eq resp sc maxRetries jit times fuel attempt st items tweets hresp,
        twitterGo_succ_eq resp sc maxRetries jit' times' fuel attempt st' items tweets hresp]
      exact ⟨rfl, rfl, rfl⟩

/-! ## C4 — rate-limited on every attempt exhausts retries -/

/-- C4: when every attempt gets a rate-limited signal, `fetch_twitter_safe`
issues exactly `max_retries + 1` API attempts and then returns through the
rate-limit-exhausted path (line 181) with the items collected so far —
none, since no attempt succeeded.  (`maxRetries ≤ 3` keeps the backoff
lookup `[120, 300, 600][attempt]` in range; the spec configures
`max_retries` as 2–3, and the source default is 2.) -/
theorem rate_limited_exhausts_retries (resp : ℚ → ℕ → ℕ → TwResponse) (sc : Scorer)
    (since now : ℚ) (lim maxRetries : ℕ) (jit : ℕ → ℚ × ℚ) (times : ℕ → ℚ)
    (st : LimiterState) (hmr : maxRetries ≤ 3)
    (hr : ∀ s m k, resp s m k = TwResponse.rateLimited) :
    (fetchTwitterSafe resp sc since now lim maxRetries jit times st).attempts
        = maxRetries + 1 ∧
    (fetchTwitterSafe resp sc since now lim maxRetries jit times st).result
        = Except.ok (TwStatus.exhaustedRetries, []) :=
  twitterGo_rateLimited _ sc maxRetries jit times hmr (fun k => hr _ _ k)
    maxRetries 0 st [] (by omega)

/-- Witness for C4 at the source defaults (`max_retries = 2`): exactly 3
attempts, exhausted-retries, no items. -/
theorem rate_limited_exhausts_retries_witness :
    (2 : ℕ) ≤ 3 ∧
      (fetchTwitterSafe (fun _ _ _ => TwResponse.rateLimited) (fun _ => none) 0 0 10 2
        (fun _ => (1, 1)) (fun _ => 0) ⟨[], 0⟩).attempts = 3 ∧
      (fetchTwitterSafe (fun _ _ _ => TwResponse.rateLimited) (fun _ => none) 0 0 10 2
        (fun _ => (1, 1)) (fun _ => 0) ⟨[], 0⟩).result
        = Except.ok (TwStatus.exhaustedRetries, []) :=
  ⟨by norm_num,
   (rate_limited_exhausts_retries (fun _ _ _ => TwResponse.rateLimited) (fun _ => none)
     0 0 10 2 (fun _ => (1, 1)) (fun _ => 0) ⟨[], 0⟩ (by norm_num) (fun _ _ _ => rfl)).1,
   (rate_limited_exhausts_retries (fun _ _ _ => TwResponse.rateLimited) (fun _ => none)
     0 0 10 2 (fun _ => (1, 1)) (fun _ => 0) ⟨[], 0⟩ (by norm_num) (fun _ _ _ => rfl)).2⟩

/-! ## C5 — transient-failure backoff -/

/-- C5, counterexample: with a transient (non-429) failure on the very
first attempt (`a = 0`), `fetch_twitter_safe` sleeps a flat 30 seconds
(line 185), which is not `2^0` plus a jitter of at most 0.5 s. -/
theorem twitter_flat_backoff_counterexample :
    (fetchTwitterSafe (fun _ _ _ => TwResponse.transientError) (fun _ => none) 0 0 10 2
      (fun _ => (1, 1)) (fun _ => 0) ⟨[], 0⟩).backoffs.head? = some 30 ∧
    ¬ ((30 : ℚ) ≤ 2 ^ (0 : ℕ) + 1 / 2) := by
  exact ⟨rfl, by norm_num⟩

/-- C5, amended: the `2^a`-plus-jitter-below-0.5 s backoff is
`GoogleSearchMonitor.search`'s (google_search.py line 141), where a
`RequestException` before the last attempt sleeps exactly
`2^a + random.random()·0.5 ∈ [2^a, 2^a + 0.5)`; `fetch_twitter_safe`
instead sleeps a flat 30 s per transient failure, and on exhaustion
returns through its fatal path with the items collected so far (none
when every attempt failed).  `GoogleSearchMonitor.search` on exhaustion
re-raises into its outer handler and returns `[]`, discarding even
results already collected from earlier pages (final conjunct: the first
page succeeded with one document, the second page exhausts, the result
is empty). -/
theorem transient_failure_backoff :
    (∀ (gresp : ℕ → GResp) (gjit : ℕ → ℚ) (fuel attempt : ℕ),
      gresp attempt = GResp.requestError → attempt < 2 →
      0 ≤ gjit attempt → gjit attempt < 1 / 2 →
      (googleInner gresp gjit (fuel + 1) attempt).1.head?
          = some (2 ^ attempt + gjit attempt) ∧
      (2 : ℚ) ^ attempt ≤ 2 ^ attempt + gjit attempt ∧
      (2 : ℚ) ^ attempt + gjit attempt < 2 ^ attempt + 1 / 2) ∧
    (∀ (resp : ℚ → ℕ → ℕ → TwResponse) (sc : Scorer) (since now : ℚ)
      (lim maxRetries : ℕ) (jit : ℕ → ℚ × ℚ) (times : ℕ → ℚ) (st : LimiterState),
      (∀ s m k, resp s m k = TwResponse.transientError) →
      (fetchTwitterSafe resp sc since now lim maxRetries jit times st).backoffs
          = List.replicate maxRetries 30 ∧
      (fetchTwitterSafe resp sc since now lim maxRetries jit times st).attempts
          = maxRetries + 1 ∧
      (fetchTwitterSafe resp sc since now lim maxRetries jit times st).result
          = Except.ok (TwStatus.fatalError, [])) ∧
    (googleSearch
        (fun start _ => if start = 1 then GResp.ok [⟨"t", "s", "l"⟩] true
          else GResp.requestError)
        (fun _ _ => 0) "q" 5 3).2 = [] := by
  refine ⟨?_, ?_, ?_⟩
  · intro gresp gjit fuel attempt hresp hlt h0 h12
    have hne : ¬ attempt = 2 := by omega
    refine ⟨?_, by linarith, by linarith⟩
    simp only [googleInner, hresp, if_neg hne, List.head?]
  · intro resp sc since now lim maxRetries jit times st hr
    exact twitterGo_transient _ sc maxRetries jit times (fun k => hr _ _ k)
      maxRetries 0 st [] (by omega)
  · rfl

/-- Witness for C5's amended claim: a first-attempt `RequestException`
with jitter 1/4 sleeps exactly `2^0 + 1/4`, and the all-transient
Twitter run at `max_retries = 2` records backoffs `[30, 30]` and ends in
the fatal path. -/
theorem transient_failure_backoff_witness :
    ((fun _ : ℕ => GResp.requestError) 0 = GResp.requestError) ∧ (0 : ℕ) < 2 ∧
      (0 : ℚ) ≤ 1 / 4 ∧ (1 / 4 : ℚ) < 1 / 2 ∧
      (googleInner (fun _ => GResp.requestError) (fun _ => 1 / 4) 3 0).1.head?
        = some (2 ^ (0 : ℕ) + 1 / 4) ∧
      (fetchTwitterSafe (fun _ _ _ => TwResponse.transientError) (fun _ => none) 0 0 10 2
        (fun _ => (1, 1)) (fun _ => 0) ⟨[], 0⟩).backoffs = List.replicate 2 30 :=
  ⟨rfl, by norm_num, by norm_num, by norm_num,
   (transient_failure_backoff.1 (fun _ => GResp.requestError) (fun _ => 1 / 4) 2 0 rfl
     (by norm_num) (by norm_num) (by norm_num)).1,
   (transient_failure_backoff.2.1 (fun _ _ _ => TwResponse.transientError) (fun _ => none)
     0 0 10 2 (fun _ => (1, 1)) (fun _ => 0) ⟨[], 0⟩ (fun _ _ _ => rfl)).1⟩

/-! ## C6 — failure containment -/

/-- C6, counterexample: with `max_retries = 4` and a rate-limited signal
on every attempt, the fourth attempt evaluates `[120, 300, 600][3]`
inside the `except` block — an `IndexError` that no handler catches, so
the exception escapes `fetch_twitter_safe`. -/
theorem twitter_indexerror_escapes :
    exceptOk (fetchTwitterSafe (fun _ _ _ => TwResponse.rateLimited) (fun _ => none)
      0 0 10 4 (fun _ => (1, 1)) (fun _ => 0) ⟨[], 0⟩).result = false := by
  rfl

/-- C6, amended: for every input with `max_retries ≤ 3` (and in
particular the source's only call, which uses the default 2), no
exception escapes `fetch_twitter_safe` — every rate-limited, transient,
fatal or empty-response outcome is reported through the returned
items/status; `fetch_reddit_safe` and `fetch_web_safe` never raise for
any input, including transport failures and missing credentials.  For
`max_retries ≥ 4` the containment fails (see the counterexample). -/
theorem fetch_contains_failures
    (resp : ℚ → ℕ → ℕ → TwResponse) (sc : Scorer) (since now : ℚ)
    (lim maxRetries : ℕ) (jit : ℕ → ℚ × ℚ) (times : ℕ → ℚ) (st : LimiterState)
    (search : String → ℕ → Except Unit (List RPost)) (rsc : Scorer) (rsince : ℚ)
    (rlim : ℕ) (rnow rj1 rj2 : ℚ) (rst : LimiterState)
    (creds : Bool) (wresp : ℕ → Except Unit (List WebDoc)) (wsc : Scorer) (wlim : ℕ)
    (wnow wj1 wj2 : ℚ) (wst : LimiterState)
    (hmr : maxRetries ≤ 3) :
    exceptOk (fetchTwitterSafe resp sc since now lim maxRetries jit times st).result
        = true ∧
    exceptOk (fetchRedditSafe search rsc rsince rlim rnow rj1 rj2 rst).items = true ∧
    exceptOk (fetchWebSafe creds wresp wsc wlim wnow wj1 wj2 wst).items = true := by
  refine ⟨twitterGo_isOk _ sc maxRetries jit times hmr _ 0 st [], rfl, ?_⟩
  cases creds
  · rfl
  · cases hw : wresp (min wlim 10) <;> simp [fetchWebSafe, hw, exceptOk]

/-- Witness for C6's amended claim at `max_retries = 2` with failing
transports everywhere. -/
theorem fetch_contains_failures_witness :
    (2 : ℕ) ≤ 3 ∧
      exceptOk (fetchTwitterSafe (fun _ _ _ => TwResponse.transientError) (fun _ => none)
        0 0 10 2 (fun _ => (1, 1)) (fun _ => 0) ⟨[], 0⟩).result = true ∧
      exceptOk (fetchRedditSafe (fun _ _ => Except.error ()) (fun _ => none)
        0 10 0 1 1 ⟨[], 0⟩).items = true ∧
      exceptOk (fetchWebSafe true (fun _ => Except.error ()) (fun _ => none)
        10 0 1 1 ⟨[], 0⟩).items = true :=
  ⟨by norm_num,
   (fetch_contains_failures (fun _ _ _ => TwResponse.transientError) (fun _ => none)
     0 0 10 2 (fun _ => (1, 1)) (fun _ => 0) ⟨[], 0⟩
     (fun _ _ => Except.error ()) (fun _ => none) 0 10 0 1 1 ⟨[], 0⟩
     true (fun _ => Except.error ()) (fun _ => none) 10 0 1 1 ⟨[], 0⟩
     (by norm_num)).1,
   (fetch_contains_failures (fun _ _ _ => TwResponse.transientError) (fun _ => none)
     0 0 10 2 (fun _ => (1, 1)) (fun _ => 0) ⟨[], 0⟩
     (fun _ _ => Except.error ()) (fun _ => none) 0 10 0 1 1 ⟨[], 0⟩
     true (fun _ => Except.error ()) (fun _ => none) 10 0 1 1 ⟨[], 0⟩
     (by norm_num)).2⟩

/-! ## C9 — determinism / idempotence under identical inputs -/

/-- C9: with the query inputs, the clock, and the mocked transport and
scorer responses held fixed, two runs of any fetcher produce identical
results — the random jitters, the limiter's clock readings and the
limiter state (the only things that differ between two real calls)
influence only how long the run sleeps, never the item list, its
ordering, the attempt count or the status. -/
theorem fetch_deterministic
    (resp : ℚ → ℕ → ℕ → TwResponse) (sc : Scorer) (since now : ℚ) (lim maxRetries : ℕ)
    (jit jit' : ℕ → ℚ × ℚ) (times times' : ℕ → ℚ) (st st' : LimiterState)
    (search : String → ℕ → Except Unit (List RPost)) (rsc : Scorer) (rsince : ℚ)
    (rlim : ℕ) (rnow rj1 rj2 rj1' rj2' : ℚ) (rst rst' : LimiterState)
    (creds : Bool) (wresp : ℕ → Except Unit (List WebDoc)) (wsc : Scorer) (wlim : ℕ)
    (wnow wj1 wj2 wj1' wj2' : ℚ) (wst wst' : LimiterState) :
    (fetchTwitterSafe resp sc since now lim maxRetries jit times st).result =
      (fetchTwitterSafe resp sc since now lim maxRetries jit' times' st').result ∧
    (fetchTwitterSafe resp sc since now lim maxRetries jit times st).attempts =
      (fetchTwitterSafe resp sc since now lim maxRetries jit' times' st').attempts ∧
    (fetchRedditSafe search rsc rsince rlim rnow rj1 rj2 rst).items =
      (fetchRedditSafe search rsc rsince rlim rnow rj1' rj2' rst').items ∧
    (fetchWebSafe creds wresp wsc wlim wnow wj1 wj2 wst).items =
      (fetchWebSafe creds wresp wsc wlim wnow wj1' wj2' wst').items := by
  have h := twitterGo_jitter_independent (resp (twitterIssuedSince now since) (min lim 10))
    sc maxRetries jit jit' times times' (maxRetries + 1) 0 st st' []
  refine ⟨h.1, h.2.1, rfl, ?_⟩
  cases creds
  · rfl
  · cases hw : wresp (min wlim 10) <;> simp [fetchWebSafe, hw]
